import Mathlib

/-!
# ferex_cli retirement projection engine — shallow embedding

This file embeds the retirement projection engine of the `ferex_cli`
repository (Go) in Lean 4 and proves properties of the embedding.

Modelling conventions:
* Go `float64` arithmetic is modelled by exact rational arithmetic (`ℚ`):
  every constant in the source is a short decimal literal, which `ℚ`
  represents exactly.
* Go `int` is modelled by `ℤ`; list lengths use `ℕ`.
* Go functions returning `(T, error)` are modelled by `Except String T`.
* Go's `map[int]float64` is modelled by an association list with `List.lookup`.
* `time.Time` values are modelled by a year/month/day record; the only
  operations the engine uses are the `Year()`, `Month()`, `Day()` accessors
  and construction of a date from them.
* `time.Now().Year()` is passed in as an explicit `nowYear` parameter.
-/

namespace Ferex

/-- A calendar date, the fragment of Go's `time.Time` the engine reads. -/
structure Date where
  year : ℤ
  month : ℤ
  day : ℤ
deriving DecidableEq

/-- Go `models.PersonalInfo` (internal/models/config.go). -/
structure PersonalInfo where
  name : String
  birthDate : Date
  currentAge : ℤ
  retirementSystem : String
deriving DecidableEq

/-- Go `models.CreditableService` (internal/models/config.go). -/
structure CreditableService where
  totalYears : ℚ
  unusedSickLeave : ℚ
deriving DecidableEq

/-- Go `models.EmploymentInfo` (internal/models/config.go). -/
structure EmploymentInfo where
  hireDate : Date
  currentSalary : ℚ
  high3Salary : ℚ
  creditableService : CreditableService
deriving DecidableEq

/-- Go `models.RetirementInfo` (internal/models/config.go). -/
structure RetirementInfo where
  targetAge : ℤ
  survivorBenefit : String
  targetRetirementDate : Date
deriving DecidableEq

/-- Go `models.TSPInfo` (internal/models/config.go). -/
structure TSPInfo where
  traditionalBalance : ℚ
  rothBalance : ℚ
  withdrawalStrategy : String
  withdrawalAmount : ℚ
  withdrawalRate : ℚ
  growthRate : ℚ
deriving DecidableEq

/-- Go `models.SocialSecurityInfo` (internal/models/config.go); the optional
`MonthlyEstimates` map is an optional association list. -/
structure SocialSecurityInfo where
  estimatedPIA : ℚ
  claimingAge : ℤ
  monthlyEstimates : Option (List (ℤ × ℚ))
deriving DecidableEq

/-- Go `models.HealthInsuranceInfo` (internal/models/config.go). -/
structure HealthInsuranceInfo where
  currentPremium : ℚ
  retirementPremium : ℚ
  premiumCOLA : ℚ
deriving DecidableEq

/-- Go `models.TaxInfo` (internal/models/config.go). -/
structure TaxInfo where
  state : String
  stateTaxRate : ℚ
  pensionTaxExempt : Bool
  ssTaxExempt : Bool
deriving DecidableEq

/-- Go `models.Config`: the validated input profile handed to the engine. -/
structure Config where
  personal : PersonalInfo
  employment : EmploymentInfo
  retirement : RetirementInfo
  tsp : TSPInfo
  socialSecurity : SocialSecurityInfo
  healthInsurance : HealthInsuranceInfo
  taxInfo : TaxInfo
deriving DecidableEq

/-- Go `models.PensionCalculation`. -/
structure PensionCalculation where
  basePension : ℚ
  reductionPercent : ℚ
  adjustedPension : ℚ
  survivorCost : ℚ
  finalPension : ℚ
deriving DecidableEq

/-- Go `models.SocialSecurityCalculation`. -/
structure SocialSecurityCalculation where
  pia : ℚ
  claimingAge : ℤ
  adjustment : ℚ
  monthlyBenefit : ℚ
deriving DecidableEq

/-- Go `models.FERSSupplementCalculation`. -/
structure FERSSupplementCalculation where
  eligible : Bool
  monthlyAmount : ℚ
  startAge : ℤ
  endAge : ℤ
  fersYears : ℚ
  ssEstimate : ℚ
deriving DecidableEq

/-- Go `models.AnnualProjection`: one simulated year.  A Go struct literal
zero-initialises every field that is not listed; the projection loop builds
the record field by field, so the embedding mirrors those assignments and
keeps `otherIncome` at its zero value, which the loop never assigns. -/
structure AnnualProjection where
  year : ℤ
  age : ℤ
  pensionIncome : ℚ
  fersSupplementIncome : ℚ
  socialSecurityIncome : ℚ
  tspWithdrawal : ℚ
  otherIncome : ℚ
  grossIncome : ℚ
  federalTax : ℚ
  stateTax : ℚ
  healthInsurance : ℚ
  lifeInsurance : ℚ
  totalDeductions : ℚ
  netIncome : ℚ
  tspStartBalance : ℚ
  tspGrowth : ℚ
  tspEndBalance : ℚ
  colaRate : ℚ
  inflationRate : ℚ
deriving DecidableEq

/-- Go `calculateMRA` (pkg/calc/calculator.go): minimum retirement age as a step
function of birth year. -/
def calculateMRA (c : Config) : ℤ :=
  let birthYear := c.personal.birthDate.year
  if birthYear < 1948 then 55
  else if birthYear < 1953 then (if birthYear < 1950 then 55 else 56)
  else if birthYear < 1965 then 56
  else if birthYear < 1970 then 57
  else 57

/-- Go `calculateFERSPension` (pkg/calc/calculator.go): regime-A base annuity,
a two-way multiplier branch. -/
def calculateFERSPension (service high3 : ℚ) (age : ℤ) : ℚ :=
  let multiplier : ℚ := if age ≥ 62 ∧ service ≥ 20 then 0.011 else 0.01
  high3 * multiplier * service

/-- Go `calculateFERSReduction` (pkg/calc/calculator.go). -/
def calculateFERSReduction (c : Config) (age : ℤ) (service : ℚ) : ℚ :=
  if age ≥ 62 ∧ service ≥ 5 then 0
  else if age ≥ 60 ∧ service ≥ 20 then 0
  else
    let mra := calculateMRA c
    if age ≥ mra ∧ service ≥ 30 then 0
    else if age ≥ mra ∧ service ≥ 10 then
      (if age < 62 then ((62 - age : ℤ) : ℚ) * 5.0 else 0)
    else 0

/-- Go `calculateCSRSPension` (pkg/calc/calculator.go): regime-B tiered base
annuity — first 5 years at 1.5%, next 5 at 1.75%, remainder at 2%. -/
def calculateCSRSPension (service high3 : ℚ) : ℚ :=
  let first5 := min service 5 * 0.015 * high3
  let next5 := if service > 5 then min (service - 5) 5 * 0.0175 * high3 else 0
  let remaining := if service > 10 then (service - 10) * 0.02 * high3 else 0
  first5 + next5 + remaining

/-- Go `calculateCSRSReduction` (pkg/calc/calculator.go). -/
def calculateCSRSReduction (age : ℤ) (service : ℚ) : ℚ :=
  if age ≥ 62 then 0
  else if age ≥ 60 ∧ service ≥ 20 then 0
  else if age ≥ 55 ∧ service ≥ 30 then 0
  else if age ≥ 55 ∧ service ≥ 20 then
    min (((62 - age : ℤ) : ℚ) * 2.0) 25.0
  else 0

/-- Go `calculateCSRSSurvivorCost` (pkg/calc/calculator.go): 2.5% of the first
$3600 plus 10% of the remainder. -/
def calculateCSRSSurvivorCost (pension : ℚ) : ℚ :=
  if pension ≤ 3600 then pension * 0.025
  else 3600 * 0.025 + (pension - 3600) * 0.10

/-- Go `calculateSurvivorBenefitCost` (pkg/calc/calculator.go). -/
def calculateSurvivorBenefitCost (c : Config) (pension : ℚ) : ℚ :=
  if c.retirement.survivorBenefit = "full" then
    (if c.personal.retirementSystem = "FERS" then pension * 0.10
     else calculateCSRSSurvivorCost pension)
  else if c.retirement.survivorBenefit = "partial" then
    (if c.personal.retirementSystem = "FERS" then pension * 0.05
     else calculateCSRSSurvivorCost pension * 0.5)
  else 0

/-- Go `calculatePension` (pkg/calc/calculator.go).  The Go function returns a
`(models.PensionCalculation, error)` pair; every return site passes a `nil`
error, so the embedding always produces `Except.ok`.  An unrecognised
retirement-system tag takes the `else` (CSRS) branch of the two-way `if`. -/
def calculatePension (c : Config) : Except String PensionCalculation :=
  let service := c.employment.creditableService.totalYears
  let high3 := c.employment.high3Salary
  let age := c.retirement.targetAge
  let basePension :=
    if c.personal.retirementSystem = "FERS" then calculateFERSPension service high3 age
    else calculateCSRSPension service high3
  let reductionPct :=
    if c.personal.retirementSystem = "FERS" then calculateFERSReduction c age service
    else calculateCSRSReduction age service
  let adjustedPension := basePension * (1 - reductionPct / 100)
  let survivorCost := calculateSurvivorBenefitCost c adjustedPension
  let finalPension := adjustedPension - survivorCost
  Except.ok
    { basePension := basePension
      reductionPercent := reductionPct
      adjustedPension := adjustedPension
      survivorCost := survivorCost
      finalPension := finalPension }

/-- Go `calculateSSClaimingAdjustment` (pkg/calc/calculator.go): claiming-age
adjustment around a fixed full retirement age of 67, using the source's
decimal constants 0.00555, 0.00416 and 0.00666 per month. -/
def calculateSSClaimingAdjustment (claimingAge : ℤ) : ℚ :=
  let fra : ℤ := 67
  if claimingAge = fra then 1.0
  else if claimingAge < fra then
    let monthsEarly := (fra - claimingAge) * 12
    if monthsEarly ≤ 36 then 1.0 - (monthsEarly : ℚ) * 0.00555
    else 1.0 - (36 * 0.00555 + ((monthsEarly - 36 : ℤ) : ℚ) * 0.00416)
  else
    let monthsLate := (claimingAge - fra) * 12
    1.0 + (monthsLate : ℚ) * 0.00666

/-- Go `calculateSocialSecurity` (pkg/calc/calculator.go). -/
def calculateSocialSecurity (c : Config) : SocialSecurityCalculation :=
  let pia := c.socialSecurity.estimatedPIA
  let claimingAge := c.socialSecurity.claimingAge
  let mb : ℚ × ℚ :=
    match c.socialSecurity.monthlyEstimates with
    | some estimates =>
        match estimates.lookup claimingAge with
        | some estimate => (estimate, estimate / pia)
        | none =>
            let adjustment := calculateSSClaimingAdjustment claimingAge
            (pia * adjustment, adjustment)
    | none =>
        let adjustment := calculateSSClaimingAdjustment claimingAge
        (pia * adjustment, adjustment)
  { pia := pia
    claimingAge := claimingAge
    adjustment := mb.2
    monthlyBenefit := mb.1 }

/-- Go `calculateFERSSupplement` (pkg/calc/calculator.go). -/
def calculateFERSSupplement (c : Config) : FERSSupplementCalculation :=
  if c.personal.retirementSystem ≠ "FERS" ∨ c.retirement.targetAge ≥ 62 then
    { eligible := false, monthlyAmount := 0, startAge := 0, endAge := 0
      fersYears := 0, ssEstimate := 0 }
  else
    let service := c.employment.creditableService.totalYears
    let age := c.retirement.targetAge
    let mra := calculateMRA c
    let eligible := (age ≥ mra ∧ service ≥ 30) ∨ (age ≥ 60 ∧ service ≥ 20)
    if eligible then
      let ssEstimate := c.socialSecurity.estimatedPIA
      let fersYears := service
      { eligible := true
        monthlyAmount := ssEstimate / 40 * fersYears
        startAge := age
        endAge := 62
        fersYears := fersYears
        ssEstimate := ssEstimate }
    else
      { eligible := false, monthlyAmount := 0, startAge := 0, endAge := 0
        fersYears := 0, ssEstimate := 0 }

/-- Modelled from the spec: the projection code calls a helper
`calculateAgeAtRetirement` whose definition is not among the provided
sources.  The spec's ProjectionLoop starts at the retirement age
("initial state = {pool at retirement, retirement age}") and the
ComparisonEngine "overrides the retirement timing" by setting the target
retirement date to the birth date shifted to `birth year + age`; the age
attained at retirement is therefore the target retirement year minus the
birth year. -/
def calculateAgeAtRetirement (c : Config) : ℤ :=
  c.retirement.targetRetirementDate.year - c.personal.birthDate.year

/-- Go `calculateFERSCOLA` (projection source): the regime-A COLA cap —
at most 2% passes through, 2–3% clamps to 2%, above 3% loses one point. -/
def calculateFERSCOLA (baseRate : ℚ) : ℚ :=
  if baseRate ≤ 0.02 then baseRate
  else if baseRate ≤ 0.03 then 0.02
  else baseRate - 0.01

/-- Go `calculatePensionIncome` (projection source): one year's pension income
with COLA compounding. -/
def calculatePensionIncome (c : Config) (pension : PensionCalculation)
    (currentAge startAge : ℤ) : ℚ :=
  let basePension := pension.finalPension
  let yearsRetired := currentAge - startAge
  if yearsRetired < 0 then 0
  else if yearsRetired = 0 then basePension
  else if c.personal.retirementSystem = "FERS" ∧ currentAge < 62 then basePension
  else
    let colaRate : ℚ :=
      if c.personal.retirementSystem = "FERS" then calculateFERSCOLA 0.025 else 0.025
    basePension * (1 + colaRate) ^ yearsRetired.toNat

/-- Go `calculateFERSSupplementIncome` (projection source). -/
def calculateFERSSupplementIncome (fersup : FERSSupplementCalculation)
    (currentAge : ℤ) : ℚ :=
  if ¬fersup.eligible ∨ currentAge < fersup.startAge ∨ currentAge ≥ fersup.endAge then 0
  else fersup.monthlyAmount * 12

/-- Go `calculateSSIncome` (projection source). -/
def calculateSSIncome (ss : SocialSecurityCalculation) (currentAge : ℤ) : ℚ :=
  if currentAge < ss.claimingAge then 0
  else
    let yearsReceiving := currentAge - ss.claimingAge
    if yearsReceiving ≤ 0 then ss.monthlyBenefit * 12
    else ss.monthlyBenefit * 12 * (1 + 0.025 : ℚ) ^ yearsReceiving.toNat

/-- Go `calculateLifeExpectancy` (projection source): the age-banded divisor
table. -/
def calculateLifeExpectancy (age : ℤ) : ℚ :=
  if age < 70 then 27.4
  else if age < 75 then 24.7
  else if age < 80 then 21.8
  else if age < 85 then 19.1
  else if age < 90 then 16.9
  else if age < 95 then 14.8
  else 12.7

/-- Go `calculateTSPWithdrawal` (projection source): one year's pool
distribution under the caller-selected strategy; a non-positive balance
short-circuits to a zero withdrawal, and an unrecognised strategy tag falls
through the `switch` to a zero withdrawal. -/
def calculateTSPWithdrawal (c : Config) (balance : ℚ) (age : ℤ) : ℚ :=
  if balance ≤ 0 then 0
  else if c.tsp.withdrawalStrategy = "fixed_amount" then
    (if c.tsp.withdrawalAmount > 0 then min c.tsp.withdrawalAmount balance else 0)
  else if c.tsp.withdrawalStrategy = "life_expectancy" then
    balance / calculateLifeExpectancy age
  else if c.tsp.withdrawalStrategy = "percentage" then
    (if c.tsp.withdrawalRate > 0 then balance * c.tsp.withdrawalRate
     else balance * 0.04)
  else if c.tsp.withdrawalStrategy = "lump_sum" then
    (if age = calculateAgeAtRetirement c then balance else 0)
  else 0

/-- Go `calculateTaxableSS` (projection source): taxable share of the Social
Security benefit through the provisional-income thresholds. -/
def calculateTaxableSS (ssBenefit grossIncome : ℚ) : ℚ :=
  if ssBenefit = 0 then 0
  else
    let provisionalIncome := grossIncome - ssBenefit + ssBenefit * 0.5
    if provisionalIncome ≤ 25000 then 0
    else if provisionalIncome ≤ 34000 then
      min (ssBenefit * 0.5) ((provisionalIncome - 25000) * 0.5)
    else min (ssBenefit * 0.85) ((provisionalIncome - 34000) * 0.85 + 4500)

/-- One federal tax bracket: lower bound, upper bound (`none` = unbounded
top band, Go's `math.Inf(1)`) and marginal rate. -/
structure TaxBracket where
  lo : ℚ
  hi : Option ℚ
  rate : ℚ

/-- The 2025 single-filer bracket table of `calculateTaxBrackets`. -/
def taxBrackets2025 : List TaxBracket :=
  [⟨0, some 11000, 0.10⟩, ⟨11000, some 44725, 0.12⟩, ⟨44725, some 95375, 0.22⟩,
   ⟨95375, some 182050, 0.24⟩, ⟨182050, some 231250, 0.32⟩,
   ⟨231250, some 578125, 0.35⟩, ⟨578125, none, 0.37⟩]

/-- The bracket loop of `calculateTaxBrackets`: stop at the first bracket
whose lower bound the income does not exceed, otherwise tax the slice
`min(income, hi) − lo` at the bracket's rate (`min(income, +∞) = income`). -/
def bracketTax (income : ℚ) : List TaxBracket → ℚ
  | [] => 0
  | b :: rest =>
      if income ≤ b.lo then 0
      else
        let upper := match b.hi with | some h => min income h | none => income
        (upper - b.lo) * b.rate + bracketTax income rest

/-- Go `calculateTaxBrackets` (projection source). -/
def calculateTaxBrackets (income : ℚ) : ℚ :=
  bracketTax income taxBrackets2025

/-- Go `calculateFederalTax` (projection source): pension + withdrawal +
taxable Social Security, less the standard deduction (with the senior
addition at 65+), run through the bracket table. -/
def calculateFederalTax (projection : AnnualProjection) (age : ℤ) : ℚ :=
  let taxableIncome := projection.pensionIncome + projection.tspWithdrawal
    + calculateTaxableSS projection.socialSecurityIncome projection.grossIncome
  let standardDeduction : ℚ := 14700 + (if age ≥ 65 then 1850 else 0)
  let taxableIncome := taxableIncome - standardDeduction
  if taxableIncome ≤ 0 then 0
  else calculateTaxBrackets taxableIncome

/-- Go `calculateStateTax` (projection source): a configured flat rate with
per-category exemptions, else the jurisdiction special-case table. -/
def calculateStateTax (c : Config) (projection : AnnualProjection) (age : ℤ) : ℚ :=
  if c.taxInfo.stateTaxRate > 0 then
    let taxableIncome := projection.grossIncome
    let taxableIncome :=
      if c.taxInfo.pensionTaxExempt then taxableIncome - projection.pensionIncome
      else taxableIncome
    let taxableIncome :=
      if c.taxInfo.ssTaxExempt then taxableIncome - projection.socialSecurityIncome
      else taxableIncome
    if taxableIncome ≤ 0 then 0 else taxableIncome * c.taxInfo.stateTaxRate
  else
    let st := c.taxInfo.state
    if st = "FL" ∨ st = "TX" ∨ st = "NV" ∨ st = "AK" ∨ st = "SD"
        ∨ st = "WY" ∨ st = "WA" ∨ st = "TN" ∨ st = "NH" then 0
    else if st = "PA" then projection.tspWithdrawal * 0.0307
    else if st = "IL" then
      (if age ≥ 65 then projection.tspWithdrawal * 0.0495
       else projection.grossIncome * 0.0495)
    else projection.grossIncome * 0.05

/-- Go `calculateHealthInsurance` (projection source). -/
def calculateHealthInsurance (c : Config) (age : ℤ) : ℚ :=
  let startAge := calculateAgeAtRetirement c
  let yearsRetired := age - startAge
  if c.healthInsurance.retirementPremium > 0 then
    let basePremium := c.healthInsurance.retirementPremium
    if c.healthInsurance.premiumCOLA > 0 ∧ yearsRetired > 0 then
      basePremium * (1 + c.healthInsurance.premiumCOLA) ^ yearsRetired.toNat
    else basePremium
  else
    let basePremium : ℚ := 4800
    if yearsRetired > 0 then basePremium * (1.03 : ℚ) ^ yearsRetired.toNat
    else basePremium

/-- Go `calculateLifeInsurance` (projection source): a flat FEGLI estimate. -/
def calculateLifeInsurance (_age : ℤ) : ℚ := 600

/-- Go `calculateCOLA` (projection source): flat 2.5% reported rate. -/
def calculateCOLA (_age _startAge : ℤ) : ℚ := 0.025

/-- One iteration of the `generateAnnualProjections` loop body: build the
year's `AnnualProjection` from the start-of-year pool balance and the
simulated age, mirroring the source's field-by-field assignments (all
fields a Go struct literal leaves out start at zero). -/
def makeProjection (c : Config) (pension : PensionCalculation)
    (ss : SocialSecurityCalculation) (fersup : FERSSupplementCalculation)
    (nowYear : ℤ) (tspBalance : ℚ) (age : ℤ) : AnnualProjection :=
  let startAge := calculateAgeAtRetirement c
  let currentAge := nowYear - c.personal.birthDate.year
  let year := nowYear + (age - currentAge)
  let pensionIncome := calculatePensionIncome c pension age startAge
  let supplementIncome := calculateFERSSupplementIncome fersup age
  let ssIncome := calculateSSIncome ss age
  let withdrawal := calculateTSPWithdrawal c tspBalance age
  let tspGrowth := tspBalance * c.tsp.growthRate
  let newBalance0 := tspBalance + tspGrowth - withdrawal
  let newBalance := if newBalance0 < 0 then 0 else newBalance0
  let grossIncome := pensionIncome + supplementIncome + ssIncome + withdrawal
  let p0 : AnnualProjection :=
    { year := year, age := age
      pensionIncome := pensionIncome
      fersSupplementIncome := supplementIncome
      socialSecurityIncome := ssIncome
      tspWithdrawal := withdrawal
      otherIncome := 0
      grossIncome := grossIncome
      federalTax := 0, stateTax := 0, healthInsurance := 0, lifeInsurance := 0
      totalDeductions := 0, netIncome := 0
      tspStartBalance := tspBalance
      tspGrowth := tspGrowth
      tspEndBalance := newBalance
      colaRate := 0, inflationRate := 0 }
  let federalTax := calculateFederalTax p0 age
  let stateTax := calculateStateTax c p0 age
  let healthIns := calculateHealthInsurance c age
  let lifeIns := calculateLifeInsurance age
  let totalDeductions := federalTax + stateTax + healthIns + lifeIns
  { p0 with
      federalTax := federalTax
      stateTax := stateTax
      healthInsurance := healthIns
      lifeInsurance := lifeIns
      totalDeductions := totalDeductions
      netIncome := grossIncome - totalDeductions
      colaRate := calculateCOLA age startAge
      inflationRate := 0.025 }

/-- The integer ages `lo, lo+1, …, hi` visited by the Go loop
`for age := lo; age <= hi; age++` (empty when `lo > hi`). -/
def intRange (lo hi : ℤ) : List ℤ :=
  (List.range (hi - lo + 1).toNat).map (fun i => lo + (i : ℤ))

/-- The `generateAnnualProjections` loop: walk the given ages carrying the
pool balance, emitting one record per year and passing each year's end
balance to the next. -/
def projectYears (c : Config) (pension : PensionCalculation)
    (ss : SocialSecurityCalculation) (fersup : FERSSupplementCalculation)
    (nowYear : ℤ) : List ℤ → ℚ → List AnnualProjection
  | [], _ => []
  | age :: rest, balance =>
      let p := makeProjection c pension ss fersup nowYear balance age
      p :: projectYears c pension ss fersup nowYear rest p.tspEndBalance

/-- Go `generateAnnualProjections` (projection source): project from the
retirement age through the fixed horizon of age 95, starting the pool at
traditional + Roth.  The Go counterpart's `error` result is invariably
`nil`, so the embedding returns the record list directly. -/
def generateAnnualProjections (c : Config) (pension : PensionCalculation)
    (ss : SocialSecurityCalculation) (fersup : FERSSupplementCalculation)
    (nowYear : ℤ) : List AnnualProjection :=
  let startAge := calculateAgeAtRetirement c
  let endAge : ℤ := 95
  let tspBalance := c.tsp.traditionalBalance + c.tsp.rothBalance
  projectYears c pension ss fersup nowYear (intRange startAge endAge) tspBalance

/-- Go `models.RetirementSummary` (internal/models). -/
structure RetirementSummary where
  monthlyPension : ℚ
  annualPension : ℚ
  pensionReductionPct : ℚ
  survivorBenefitCost : ℚ
  netMonthlyPension : ℚ
  fersSupplement : ℚ
  supplementEndAge : ℤ
  monthlySocialSecurity : ℚ
  socialSecurityStartAge : ℤ
  tspStartingBalance : ℚ
  tspProjectedDepletion : ℤ
  firstYearIncome : ℚ
  lifetimeIncome : ℚ
  replacementRatio : ℚ
deriving DecidableEq

/-- Go `models.RetirementResults` less the run metadata (calculation date,
engine version, warnings), which is presentation data none of the verified
properties read. -/
structure RetirementResults where
  summary : RetirementSummary
  annualProjections : List AnnualProjection
deriving DecidableEq

/-- Go `models.ComparisonMetrics`. -/
structure ComparisonMetrics where
  scenarioCount : ℕ
  bestLifetimeIncome : RetirementSummary
  lifetimeIncomeSpread : ℚ
  replacementRatioSpread : ℚ
deriving DecidableEq

/-- Go `models.ComparisonResults`. -/
structure ComparisonResults where
  scenarios : List RetirementResults
  comparisonMetrics : ComparisonMetrics
deriving DecidableEq

/-- Go `calculateLifetimeIncome` (pkg/calc/summary.go): sum of net income. -/
def calculateLifetimeIncome (projections : List AnnualProjection) : ℚ :=
  projections.foldl (fun total p => total + p.netIncome) 0

/-- Go `calculateReplacementRatio` (pkg/calc/summary.go). -/
def calculateReplacementRatio (c : Config) (firstYear : AnnualProjection) : ℚ :=
  firstYear.netIncome / c.employment.high3Salary

/-- Go `findTSPDepletionAge` (pkg/calc/summary.go): the first age whose end
balance is non-positive while its start balance was positive, else 0. -/
def findTSPDepletionAge : List AnnualProjection → ℤ
  | [] => 0
  | p :: rest =>
      if p.tspEndBalance ≤ 0 ∧ p.tspStartBalance > 0 then p.age
      else findTSPDepletionAge rest

/-- Go `createSummary` (pkg/calc/summary.go): the zero-valued summary fields of
the Go struct literal, the supplement fields set only when eligible, and the
first-year/lifetime/replacement fields set only when projections exist. -/
def createSummary (c : Config) (pension : PensionCalculation)
    (ss : SocialSecurityCalculation) (fersup : FERSSupplementCalculation)
    (projections : List AnnualProjection) : RetirementSummary :=
  { monthlyPension := pension.finalPension / 12
    annualPension := pension.finalPension
    pensionReductionPct := pension.reductionPercent
    survivorBenefitCost := pension.survivorCost
    netMonthlyPension := pension.finalPension / 12
    fersSupplement := if fersup.eligible then fersup.monthlyAmount else 0
    supplementEndAge := if fersup.eligible then fersup.endAge else 0
    monthlySocialSecurity := ss.monthlyBenefit
    socialSecurityStartAge := ss.claimingAge
    tspStartingBalance := c.tsp.traditionalBalance + c.tsp.rothBalance
    tspProjectedDepletion := findTSPDepletionAge projections
    firstYearIncome := match projections with | [] => 0 | p :: _ => p.netIncome
    lifetimeIncome :=
      match projections with
      | [] => 0
      | _ :: _ => calculateLifetimeIncome projections
    replacementRatio :=
      match projections with
      | [] => 0
      | p :: _ => calculateReplacementRatio c p }

/-- Go `Calculate` (pkg/calc/calculator.go): the single-scenario pipeline.
Each stage's `error` is propagated; in the source none of the stages ever
produces one. -/
def Calculate (c : Config) (nowYear : ℤ) : Except String RetirementResults :=
  match calculatePension c with
  | Except.error e => Except.error e
  | Except.ok pension =>
      let ss := calculateSocialSecurity c
      let fersup := calculateFERSSupplement c
      let projections := generateAnnualProjections c pension ss fersup nowYear
      let summary := createSummary c pension ss fersup projections
      Except.ok { summary := summary, annualProjections := projections }

/-- The running accumulator of the `calculateComparisonMetrics` loop:
best/worst lifetime income, best/worst replacement ratio, and the summary
of the best-lifetime-income scenario. -/
structure CompAcc where
  best : ℚ
  worst : ℚ
  bestRepl : ℚ
  worstRepl : ℚ
  bestSummary : RetirementSummary

/-- The body of the `calculateComparisonMetrics` loop over the scenarios
after the first (the `i == 0` iteration seeds the accumulator). -/
def compMetricsLoop : List RetirementResults → CompAcc → CompAcc
  | [], acc => acc
  | r :: rest, acc =>
      let lifetime := r.summary.lifetimeIncome
      let replacement := r.summary.replacementRatio
      compMetricsLoop rest
        { best := if lifetime > acc.best then lifetime else acc.best
          worst := if lifetime < acc.worst then lifetime else acc.worst
          bestRepl := if replacement > acc.bestRepl then replacement else acc.bestRepl
          worstRepl := if replacement < acc.worstRepl then replacement else acc.worstRepl
          bestSummary := if lifetime > acc.best then r.summary else acc.bestSummary }

/-- The all-zero `models.ComparisonMetrics` returned for an empty scenario
list (Go zero values). -/
def emptyMetrics : ComparisonMetrics :=
  { scenarioCount := 0
    bestLifetimeIncome :=
      { monthlyPension := 0, annualPension := 0, pensionReductionPct := 0
        survivorBenefitCost := 0, netMonthlyPension := 0, fersSupplement := 0
        supplementEndAge := 0, monthlySocialSecurity := 0
        socialSecurityStartAge := 0, tspStartingBalance := 0
        tspProjectedDepletion := 0, firstYearIncome := 0, lifetimeIncome := 0
        replacementRatio := 0 }
    lifetimeIncomeSpread := 0
    replacementRatioSpread := 0 }

/-- Go `calculateComparisonMetrics` (pkg/calc/summary.go): scenario count,
best-lifetime-income summary, and max−min spreads; the first iteration of
the Go loop (`i == 0`) initialises every accumulator from the first
scenario. -/
def calculateComparisonMetrics : List RetirementResults → ComparisonMetrics
  | [] => emptyMetrics
  | r :: rest =>
      let acc0 : CompAcc :=
        { best := r.summary.lifetimeIncome
          worst := r.summary.lifetimeIncome
          bestRepl := r.summary.replacementRatio
          worstRepl := r.summary.replacementRatio
          bestSummary := r.summary }
      let acc := compMetricsLoop rest acc0
      { scenarioCount := (r :: rest).length
        bestLifetimeIncome := acc.bestSummary
        lifetimeIncomeSpread := acc.best - acc.worst
        replacementRatioSpread := acc.bestRepl - acc.worstRepl }

/-- Go `strconv.Atoi` on the strings the comparison accepts: an optional sign
followed by at least one decimal digit; anything else fails. -/
def atoiDigits : List Char → Option ℕ
  | [] => none
  | [ch] => if ch.isDigit then some (ch.toNat - 48) else none
  | ch :: rest =>
      if ch.isDigit then
        match atoiDigits rest with
        | some n => some ((ch.toNat - 48) * 10 ^ rest.length + n)
        | none => none
      else none

/-- Go `strconv.Atoi` (Go standard library), modelled for sign + digits. -/
def atoi (s : String) : Option ℤ :=
  match s.toList with
  | '+' :: rest => (atoiDigits rest).map (fun n => (n : ℤ))
  | '-' :: rest => (atoiDigits rest).map (fun n => -(n : ℤ))
  | chars => (atoiDigits chars).map (fun n => (n : ℤ))

/-- The per-scenario profile copy built inside `CompareRetirementAges`:
a value copy of the base profile with the target retirement date replaced
by the birth date shifted to `birth year + age`. -/
def scenarioConfig (base : Config) (age : ℤ) : Config :=
  { base with
      retirement :=
        { base.retirement with
            targetRetirementDate :=
              { year := base.personal.birthDate.year + age
                month := base.personal.birthDate.month
                day := base.personal.birthDate.day } } }

/-- The scenario loop of `CompareRetirementAges`: parse each age string,
run the full pipeline on the scenario copy, and collect the results in
order; the first failure aborts the whole run with no partial result. -/
def compareScenarios (base : Config) (nowYear : ℤ) :
    List String → Except String (List RetirementResults)
  | [] => Except.ok []
  | s :: rest =>
      match atoi s with
      | none => Except.error ("invalid retirement age: " ++ s)
      | some age =>
          match Calculate (scenarioConfig base age) nowYear with
          | Except.error e => Except.error e
          | Except.ok r =>
              match compareScenarios base nowYear rest with
              | Except.error e => Except.error e
              | Except.ok rs => Except.ok (r :: rs)

/-- Go `CompareRetirementAges` (pkg/calc/summary.go). -/
def CompareRetirementAges (base : Config) (nowYear : ℤ)
    (ageStrings : List String) : Except String ComparisonResults :=
  match compareScenarios base nowYear ageStrings with
  | Except.error e => Except.error e
  | Except.ok results =>
      Except.ok
        { scenarios := results
          comparisonMetrics := calculateComparisonMetrics results }

/-- The scenario loop of `CompareRetirementAges` with the caller-owned
profile threaded as explicit mutable state: the Go loop reads `*baseConfig`
into the value copy `configCopy` and every later write targets the copy,
so the statement-by-statement translation carries the caller's profile
unchanged from iteration to iteration and returns it alongside the
results. -/
def compareScenariosSt (store : Config) (nowYear : ℤ) :
    List String → Except String (Config × List RetirementResults)
  | [] => Except.ok (store, [])
  | s :: rest =>
      match atoi s with
      | none => Except.error ("invalid retirement age: " ++ s)
      | some age =>
          let configCopy := scenarioConfig store age
          match Calculate configCopy nowYear with
          | Except.error e => Except.error e
          | Except.ok r =>
              match compareScenariosSt store nowYear rest with
              | Except.error e => Except.error e
              | Except.ok (store2, rs) => Except.ok (store2, r :: rs)

/-- A concrete profile for the end-to-end pension scenario of the spec:
regime A (FERS), 25 years of creditable service, high-3 salary base 82000,
target retirement age 62, full survivor election. -/
def cfg3 : Config :=
  { personal :=
      { name := "Test User", birthDate := ⟨1962, 3, 15⟩, currentAge := 62
        retirementSystem := "FERS" }
    employment :=
      { hireDate := ⟨1999, 1, 15⟩, currentSalary := 85000, high3Salary := 82000
        creditableService := { totalYears := 25, unusedSickLeave := 0 } }
    retirement :=
      { targetAge := 62, survivorBenefit := "full"
        targetRetirementDate := ⟨2024, 3, 15⟩ }
    tsp :=
      { traditionalBalance := 400000, rothBalance := 100000
        withdrawalStrategy := "life_expectancy", withdrawalAmount := 0
        withdrawalRate := 0, growthRate := 0.07 }
    socialSecurity :=
      { estimatedPIA := 2800, claimingAge := 67, monthlyEstimates := none }
    healthInsurance :=
      { currentPremium := 0, retirementPremium := 0, premiumCOLA := 0 }
    taxInfo :=
      { state := "", stateTaxRate := 0, pensionTaxExempt := false
        ssTaxExempt := false } }

/-- A concrete profile whose regime tag and withdrawal-strategy tag are
both outside the supported sets. -/
def cfgBad : Config :=
  { personal :=
      { name := "Bad Tags", birthDate := ⟨1962, 3, 15⟩, currentAge := 62
        retirementSystem := "XYZ" }
    employment :=
      { hireDate := ⟨1999, 1, 15⟩, currentSalary := 85000, high3Salary := 82000
        creditableService := { totalYears := 25, unusedSickLeave := 0 } }
    retirement :=
      { targetAge := 62, survivorBenefit := "none"
        targetRetirementDate := ⟨2024, 3, 15⟩ }
    tsp :=
      { traditionalBalance := 400000, rothBalance := 100000
        withdrawalStrategy := "unknown", withdrawalAmount := 0
        withdrawalRate := 0, growthRate := 0.07 }
    socialSecurity :=
      { estimatedPIA := 2800, claimingAge := 67, monthlyEstimates := none }
    healthInsurance :=
      { currentPremium := 0, retirementPremium := 0, premiumCOLA := 0 }
    taxInfo :=
      { state := "", stateTaxRate := 0, pensionTaxExempt := false
        ssTaxExempt := false } }

/-- The pension result of the end-to-end scenario, used as a concrete
`PensionCalculation` input to the projection-level witnesses. -/
def penW : PensionCalculation :=
  { basePension := 22550, reductionPercent := 0, adjustedPension := 22550
    survivorCost := 2255, finalPension := 20295 }

/-- A concrete Social Security result used as a projection-loop input. -/
def ssW : SocialSecurityCalculation :=
  { pia := 2800, claimingAge := 67, adjustment := 1, monthlyBenefit := 2800 }

/-- A concrete (ineligible) supplement result used as a projection-loop
input. -/
def supW : FERSSupplementCalculation :=
  { eligible := false, monthlyAmount := 0, startAge := 0, endAge := 0
    fersYears := 0, ssEstimate := 0 }

/-- A concrete profile whose projection starts at the horizon age 95, so a
run from 2025 produces exactly one annual record. -/
def cfgP : Config :=
  { personal :=
      { name := "P", birthDate := ⟨1930, 1, 1⟩, currentAge := 95
        retirementSystem := "FERS" }
    employment :=
      { hireDate := ⟨1960, 1, 1⟩, currentSalary := 85000, high3Salary := 82000
        creditableService := { totalYears := 25, unusedSickLeave := 0 } }
    retirement :=
      { targetAge := 62, survivorBenefit := "full"
        targetRetirementDate := ⟨2025, 1, 1⟩ }
    tsp :=
      { traditionalBalance := 1000, rothBalance := 0
        withdrawalStrategy := "percentage", withdrawalAmount := 0
        withdrawalRate := 0.04, growthRate := 0.05 }
    socialSecurity :=
      { estimatedPIA := 2800, claimingAge := 67, monthlyEstimates := none }
    healthInsurance :=
      { currentPremium := 0, retirementPremium := 0, premiumCOLA := 0 }
    taxInfo :=
      { state := "", stateTaxRate := 0, pensionTaxExempt := false
        ssTaxExempt := false } }

/-- The single record produced by projecting `cfgP` from 2025. -/
def pW1 : AnnualProjection := makeProjection cfgP penW ssW supW 2025 1000 95

/-- A concrete profile with an empty pool whose projection starts at age
94, so a run from 2025 produces exactly two annual records. -/
def cfgZ : Config :=
  { personal :=
      { name := "Z", birthDate := ⟨1930, 1, 1⟩, currentAge := 94
        retirementSystem := "FERS" }
    employment :=
      { hireDate := ⟨1960, 1, 1⟩, currentSalary := 85000, high3Salary := 82000
        creditableService := { totalYears := 25, unusedSickLeave := 0 } }
    retirement :=
      { targetAge := 62, survivorBenefit := "full"
        targetRetirementDate := ⟨2024, 1, 1⟩ }
    tsp :=
      { traditionalBalance := 0, rothBalance := 0
        withdrawalStrategy := "percentage", withdrawalAmount := 0
        withdrawalRate := 0.04, growthRate := 0.05 }
    socialSecurity :=
      { estimatedPIA := 2800, claimingAge := 67, monthlyEstimates := none }
    healthInsurance :=
      { currentPremium := 0, retirementPremium := 0, premiumCOLA := 0 }
    taxInfo :=
      { state := "", stateTaxRate := 0, pensionTaxExempt := false
        ssTaxExempt := false } }

/-- The first record produced by projecting `cfgZ` from 2025. -/
def pZ1 : AnnualProjection := makeProjection cfgZ penW ssW supW 2025 0 94

/-- The second record produced by projecting `cfgZ` from 2025. -/
def pZ2 : AnnualProjection := makeProjection cfgZ penW ssW supW 2025 0 95

/-- Specification-side maximum of a nonempty list of rationals, written as
a seed element plus the remaining elements. -/
def listMax (x : ℚ) (xs : List ℚ) : ℚ := xs.foldl max x

/-- Specification-side minimum of a nonempty list of rationals. -/
def listMin (x : ℚ) (xs : List ℚ) : ℚ := xs.foldl min x

/-- Age strings for a concrete two-scenario comparison run. -/
def strs7 : List String := ["62", "65"]

/-- The comparison result of running `CompareRetirementAges` on `cfgP`
with the ages `strs7` (the run succeeds, so the fallback arm is inert). -/
def crW : ComparisonResults :=
  match CompareRetirementAges cfgP 2025 strs7 with
  | Except.ok c => c
  | Except.error _ => { scenarios := [], comparisonMetrics := emptyMetrics }

/-- The first scenario of `crW`. -/
def rW : RetirementResults :=
  match crW.scenarios with
  | x :: _ => x
  | [] => { summary := emptyMetrics.bestLifetimeIncome, annualProjections := [] }

/-- The scenarios of `crW` after the first. -/
def restW : List RetirementResults :=
  match crW.scenarios with
  | _ :: t => t
  | [] => []

/-- The state-threaded comparison run on `cfgP` for a single age string. -/
def outW : Config × List RetirementResults :=
  match compareScenariosSt cfgP 2025 ["95"] with
  | Except.ok o => o
  | Except.error _ => (cfgP, [])

end Ferex

namespace Ferex

/-- C3: for service = 25 years, salary base = 82000, target retirement age
62, regime A (FERS), full survivor election, the pension computation
returns base annuity exactly 22550.00, survivor cost exactly 2255.00 and
final net annuity exactly 20295.00, with a zero reduction. -/
theorem endToEnd_scenario_pension :
    calculatePension cfg3 =
      Except.ok
        { basePension := 22550
          reductionPercent := 0
          adjustedPension := 22550
          survivorCost := 2255
          finalPension := 20295 } := by
  norm_num [calculatePension, cfg3, calculateFERSPension, calculateFERSReduction,
    calculateMRA, calculateSurvivorBenefitCost]

/-- Tier-1-only closed form of the regime-B annuity for service at most 5
years. -/
theorem csrsPension_low (s high3 : ℚ) (h : s ≤ 5) :
    calculateCSRSPension s high3 = s * 0.015 * high3 := by
  have h10 : ¬s > 10 := by linarith
  have h5 : ¬s > 5 := by linarith
  simp only [calculateCSRSPension, min_eq_left h, if_neg h5, if_neg h10]
  ring

/-- Tier-1-and-2 closed form of the regime-B annuity for service between 5
and 10 years. -/
theorem csrsPension_mid (s high3 : ℚ) (h1 : 5 < s) (h2 : s ≤ 10) :
    calculateCSRSPension s high3 = (5 * 0.015 + (s - 5) * 0.0175) * high3 := by
  have h10 : ¬s > 10 := by linarith
  have hm1 : min s 5 = 5 := min_eq_right (le_of_lt h1)
  have hm2 : min (s - 5) 5 = s - 5 := min_eq_left (by linarith)
  simp only [calculateCSRSPension, hm1, if_pos h1, hm2, if_neg h10]
  ring

/-- Full three-tier closed form of the regime-B annuity for service above
10 years. -/
theorem csrsPension_high (s high3 : ℚ) (h : 10 < s) :
    calculateCSRSPension s high3 =
      (5 * 0.015 + 5 * 0.0175 + (s - 10) * 0.02) * high3 := by
  have h5 : s > 5 := by linarith
  have hm1 : min s 5 = 5 := min_eq_right (by linarith)
  have hm2 : min (s - 5) 5 = 5 := min_eq_right (by linarith)
  simp only [calculateCSRSPension, hm1, if_pos h5, hm2, if_pos h]
  ring

/-- C5: the regime-B (CSRS) base annuity is strictly increasing in
creditable service for a positive salary base, equals exactly
`(5·0.015 + 5·0.0175 + (service−10)·0.02)·salary_base` above 10 years of
service, uses only tier 1 below 5 years, and only tiers 1–2 between 5 and
10 years, each tier clamped to the remaining service. -/
theorem csrsPension_spec (high3 : ℚ) :
    (0 < high3 → ∀ s₁ s₂ : ℚ, s₁ < s₂ →
        calculateCSRSPension s₁ high3 < calculateCSRSPension s₂ high3)
    ∧ (∀ s : ℚ, 10 < s →
        calculateCSRSPension s high3 =
          (5 * 0.015 + 5 * 0.0175 + (s - 10) * 0.02) * high3)
    ∧ (∀ s : ℚ, s ≤ 5 → calculateCSRSPension s high3 = s * 0.015 * high3)
    ∧ (∀ s : ℚ, 5 < s → s ≤ 10 →
        calculateCSRSPension s high3 = (5 * 0.015 + (s - 5) * 0.0175) * high3) := by
  refine ⟨?_, fun s hs => csrsPension_high s high3 hs,
    fun s hs => csrsPension_low s high3 hs,
    fun s hs1 hs2 => csrsPension_mid s high3 hs1 hs2⟩
  intro hpos s₁ s₂ hlt
  rcases le_or_lt s₁ 5 with h₁ | h₁
  · rcases le_or_lt s₂ 5 with h₂ | h₂
    · rw [csrsPension_low s₁ high3 h₁, csrsPension_low s₂ high3 h₂]
      nlinarith [mul_pos (show (0:ℚ) < s₂ - s₁ by linarith) hpos]
    · rcases le_or_lt s₂ 10 with h₃ | h₃
      · rw [csrsPension_low s₁ high3 h₁, csrsPension_mid s₂ high3 h₂ h₃]
        nlinarith [mul_nonneg (show (0:ℚ) ≤ 5 - s₁ by linarith) (le_of_lt hpos),
          mul_pos (show (0:ℚ) < s₂ - 5 by linarith) hpos]
      · rw [csrsPension_low s₁ high3 h₁, csrsPension_high s₂ high3 h₃]
        nlinarith [mul_nonneg (show (0:ℚ) ≤ 5 - s₁ by linarith) (le_of_lt hpos),
          mul_pos (show (0:ℚ) < s₂ - 10 by linarith) hpos]
  · rcases le_or_lt s₁ 10 with h₂ | h₂
    · rcases le_or_lt s₂ 10 with h₃ | h₃
      · rw [csrsPension_mid s₁ high3 h₁ h₂, csrsPension_mid s₂ high3 (by linarith) h₃]
        nlinarith [mul_pos (show (0:ℚ) < s₂ - s₁ by linarith) hpos]
      · rw [csrsPension_mid s₁ high3 h₁ h₂, csrsPension_high s₂ high3 h₃]
        nlinarith [mul_nonneg (show (0:ℚ) ≤ 10 - s₁ by linarith) (le_of_lt hpos),
          mul_pos (show (0:ℚ) < s₂ - 10 by linarith) hpos]
    · rw [csrsPension_high s₁ high3 h₂, csrsPension_high s₂ high3 (by linarith)]
      nlinarith [mul_pos (show (0:ℚ) < s₂ - s₁ by linarith) hpos]

/-- Witness for `csrsPension_spec` at salary base 102000: monotonicity from
12 to 42 service years, and the exact three-tier value at 42 years. -/
theorem csrsPension_spec_witness :
    calculateCSRSPension 12 102000 < calculateCSRSPension 42 102000
    ∧ calculateCSRSPension 42 102000 =
        (5 * 0.015 + 5 * 0.0175 + (42 - 10) * 0.02) * 102000 :=
  ⟨(csrsPension_spec 102000).1 (by norm_num) 12 42 (by norm_num),
   (csrsPension_spec 102000).2.1 42 (by norm_num)⟩

/-- C4 counterexample: the analytic early-claiming reduction is not exactly
5/9 of 1% per month — at claiming age 66 (12 months early) the source's
factor `1 − 12·0.00555` differs from `1 − 12·(5/9)/100`. -/
theorem ssAdjustment_counterexample :
    calculateSSClaimingAdjustment 66 ≠ 1 - 12 * (5 / 9 / 100) := by
  norm_num [calculateSSClaimingAdjustment]

/-- C4 amended: over the supported claiming-age range 62–70 the adjustment
factor is exactly 1 at the reference age 67 and otherwise uses the decimal
per-month constants 0.00555 (first 36 early months), 0.00416 (earlier
months) and 0.00666 (delayed months) — truncations of 5/9·1%, 5/12·1% and
2/3·1% — yielding these exact factors. -/
theorem ssAdjustment_table :
    calculateSSClaimingAdjustment 62 = 1 - 36 * 0.00555 - 24 * 0.00416
    ∧ calculateSSClaimingAdjustment 63 = 1 - 36 * 0.00555 - 12 * 0.00416
    ∧ calculateSSClaimingAdjustment 64 = 1 - 36 * 0.00555
    ∧ calculateSSClaimingAdjustment 65 = 1 - 24 * 0.00555
    ∧ calculateSSClaimingAdjustment 66 = 1 - 12 * 0.00555
    ∧ calculateSSClaimingAdjustment 67 = 1
    ∧ calculateSSClaimingAdjustment 68 = 1 + 12 * 0.00666
    ∧ calculateSSClaimingAdjustment 69 = 1 + 24 * 0.00666
    ∧ calculateSSClaimingAdjustment 70 = 1 + 36 * 0.00666 := by
  refine ⟨?_, ?_, ?_, ?_, ?_, ?_, ?_, ?_, ?_⟩ <;>
    norm_num [calculateSSClaimingAdjustment]

/-- C2 counterexample: on a profile whose regime tag is `"XYZ"` and whose
withdrawal-strategy tag is `"unknown"`, the engine does not fail — the
pension computation returns a result (the regime-B computation) and the
withdrawal computation silently returns 0. -/
theorem invalidTags_counterexample :
    calculatePension cfgBad =
      Except.ok
        { basePension := 37925
          reductionPercent := 0
          adjustedPension := 37925
          survivorCost := 0
          finalPension := 37925 }
    ∧ calculateTSPWithdrawal cfgBad 100000 62 = 0 := by
  constructor
  · simp [calculatePension, cfgBad, calculateCSRSPension,
      calculateCSRSReduction, calculateSurvivorBenefitCost]
    norm_num
  · have hb : ¬(100000 : ℚ) ≤ 0 := by norm_num
    simp [calculateTSPWithdrawal, cfgBad, hb]

/-- C2 amended: an unrecognised regime tag is not rejected — the two-way
regime branch silently computes the regime-B (CSRS) formulas and returns
them as a non-error result — and an unrecognised withdrawal-strategy tag
silently yields a zero withdrawal; the engine never fails fast on either
tag. -/
theorem invalidTags_silent_default (c : Config) (bal : ℚ) (age : ℤ)
    (hr : c.personal.retirementSystem ≠ "FERS")
    (h1 : c.tsp.withdrawalStrategy ≠ "fixed_amount")
    (h2 : c.tsp.withdrawalStrategy ≠ "life_expectancy")
    (h3 : c.tsp.withdrawalStrategy ≠ "percentage")
    (h4 : c.tsp.withdrawalStrategy ≠ "lump_sum") :
    calculatePension c =
      Except.ok
        { basePension :=
            calculateCSRSPension c.employment.creditableService.totalYears
              c.employment.high3Salary
          reductionPercent :=
            calculateCSRSReduction c.retirement.targetAge
              c.employment.creditableService.totalYears
          adjustedPension :=
            calculateCSRSPension c.employment.creditableService.totalYears
                c.employment.high3Salary *
              (1 - calculateCSRSReduction c.retirement.targetAge
                  c.employment.creditableService.totalYears / 100)
          survivorCost :=
            calculateSurvivorBenefitCost c
              (calculateCSRSPension c.employment.creditableService.totalYears
                  c.employment.high3Salary *
                (1 - calculateCSRSReduction c.retirement.targetAge
                    c.employment.creditableService.totalYears / 100))
          finalPension :=
            calculateCSRSPension c.employment.creditableService.totalYears
                c.employment.high3Salary *
              (1 - calculateCSRSReduction c.retirement.targetAge
                  c.employment.creditableService.totalYears / 100) -
            calculateSurvivorBenefitCost c
              (calculateCSRSPension c.employment.creditableService.totalYears
                  c.employment.high3Salary *
                (1 - calculateCSRSReduction c.retirement.targetAge
                    c.employment.creditableService.totalYears / 100)) }
    ∧ calculateTSPWithdrawal c bal age = 0 := by
  constructor
  · simp [calculatePension, hr]
  · by_cases hb : bal ≤ 0
    · simp [calculateTSPWithdrawal, hb]
    · simp [calculateTSPWithdrawal, hb, h1, h2, h3, h4]

/-- Witness for `invalidTags_silent_default` at the concrete bad-tag
profile. -/
theorem invalidTags_silent_default_witness :
    calculatePension cfgBad =
      Except.ok
        { basePension :=
            calculateCSRSPension cfgBad.employment.creditableService.totalYears
              cfgBad.employment.high3Salary
          reductionPercent :=
            calculateCSRSReduction cfgBad.retirement.targetAge
              cfgBad.employment.creditableService.totalYears
          adjustedPension :=
            calculateCSRSPension cfgBad.employment.creditableService.totalYears
                cfgBad.employment.high3Salary *
              (1 - calculateCSRSReduction cfgBad.retirement.targetAge
                  cfgBad.employment.creditableService.totalYears / 100)
          survivorCost :=
            calculateSurvivorBenefitCost cfgBad
              (calculateCSRSPension cfgBad.employment.creditableService.totalYears
                  cfgBad.employment.high3Salary *
                (1 - calculateCSRSReduction cfgBad.retirement.targetAge
                    cfgBad.employment.creditableService.totalYears / 100))
          finalPension :=
            calculateCSRSPension cfgBad.employment.creditableService.totalYears
                cfgBad.employment.high3Salary *
              (1 - calculateCSRSReduction cfgBad.retirement.targetAge
                  cfgBad.employment.creditableService.totalYears / 100) -
            calculateSurvivorBenefitCost cfgBad
              (calculateCSRSPension cfgBad.employment.creditableService.totalYears
                  cfgBad.employment.high3Salary *
                (1 - calculateCSRSReduction cfgBad.retirement.targetAge
                    cfgBad.employment.creditableService.totalYears / 100)) }
    ∧ calculateTSPWithdrawal cfgBad 250000 60 = 0 :=
  invalidTags_silent_default cfgBad 250000 60 (by simp [cfgBad])
    (by simp [cfgBad]) (by simp [cfgBad]) (by simp [cfgBad]) (by simp [cfgBad])

/-- C9: a regime-A (FERS) pension pays the raw final net annuity with no
COLA adjustment at every simulated age from the retirement age up to (but
excluding) 62, and under either regime the first retirement year pays
exactly the raw final annuity. -/
theorem pensionIncome_spec (c : Config) (pension : PensionCalculation)
    (s a : ℤ) :
    (c.personal.retirementSystem = "FERS" → s ≤ a → a < 62 →
        calculatePensionIncome c pension a s = pension.finalPension)
    ∧ calculatePensionIncome c pension s s = pension.finalPension := by
  constructor
  · intro hF h1 h2
    have hneg : ¬a - s < 0 := by omega
    by_cases hz : a - s = 0
    · simp [calculatePensionIncome, hneg, hz]
    · simp [calculatePensionIncome, hneg, hz, hF, h2]
  · simp [calculatePensionIncome]

/-- Witness for `pensionIncome_spec`: the concrete FERS profile paying the
unadjusted final annuity at age 60 after retiring at 57, and in its first
retirement year. -/
theorem pensionIncome_spec_witness :
    calculatePensionIncome cfg3 penW 60 57 = penW.finalPension
    ∧ calculatePensionIncome cfg3 penW 57 57 = penW.finalPension :=
  ⟨(pensionIncome_spec cfg3 penW 57 60).1 rfl (by norm_num) (by norm_num),
   (pensionIncome_spec cfg3 penW 57 57).2⟩

/-- Rewriting the source's negative-balance floor as a `max`. -/
theorem ite_lt_zero_eq_max (x : ℚ) : (if x < 0 then 0 else x) = max 0 x := by
  rcases lt_or_le x 0 with h | h
  · rw [if_pos h, max_eq_left h.le]
  · rw [if_neg (not_lt.mpr h), max_eq_right h]

/-- Per-record facts about one iteration of the projection loop body. -/
theorem makeProjection_spec (c : Config) (pension : PensionCalculation)
    (ss : SocialSecurityCalculation) (fersup : FERSSupplementCalculation)
    (nowYear : ℤ) (bal : ℚ) (age : ℤ) :
    (makeProjection c pension ss fersup nowYear bal age).otherIncome = 0
    ∧ (makeProjection c pension ss fersup nowYear bal age).grossIncome =
        (makeProjection c pension ss fersup nowYear bal age).pensionIncome
        + (makeProjection c pension ss fersup nowYear bal age).fersSupplementIncome
        + (makeProjection c pension ss fersup nowYear bal age).socialSecurityIncome
        + (makeProjection c pension ss fersup nowYear bal age).tspWithdrawal
    ∧ (makeProjection c pension ss fersup nowYear bal age).netIncome =
        (makeProjection c pension ss fersup nowYear bal age).grossIncome
        - (makeProjection c pension ss fersup nowYear bal age).totalDeductions
    ∧ (makeProjection c pension ss fersup nowYear bal age).tspStartBalance = bal
    ∧ (makeProjection c pension ss fersup nowYear bal age).tspGrowth =
        bal * c.tsp.growthRate
    ∧ (makeProjection c pension ss fersup nowYear bal age).tspEndBalance =
        max 0 (bal + bal * c.tsp.growthRate
          - (makeProjection c pension ss fersup nowYear bal age).tspWithdrawal) := by
  refine ⟨?_, ?_, ?_, ?_, ?_, ?_⟩
  · simp [makeProjection]
  · simp [makeProjection]
  · simp [makeProjection]
  · simp [makeProjection]
  · simp [makeProjection]
  · simp only [makeProjection]
    exact ite_lt_zero_eq_max _

/-- Every record the projection loop emits is the loop body applied to
some balance and age. -/
theorem projectYears_mem (c : Config) (pension : PensionCalculation)
    (ss : SocialSecurityCalculation) (fersup : FERSSupplementCalculation)
    (nowYear : ℤ) :
    ∀ (ages : List ℤ) (bal : ℚ) (p : AnnualProjection),
      p ∈ projectYears c pension ss fersup nowYear ages bal →
      ∃ b a, p = makeProjection c pension ss fersup nowYear b a := by
  intro ages
  induction ages with
  | nil => intro bal p hp; simp [projectYears] at hp
  | cons a rest ih =>
      intro bal p hp
      simp only [projectYears] at hp
      rcases List.mem_cons.mp hp with h | h
      · exact ⟨bal, a, h⟩
      · exact ih _ p h

/-- C1: every emitted annual record satisfies the declared invariants —
net income is gross income minus total deductions, gross income is the sum
of the five declared income components, and the pool end balance is
`max 0 (start + growth − withdrawal)`. -/
theorem annualRecord_invariants (c : Config) (pension : PensionCalculation)
    (ss : SocialSecurityCalculation) (fersup : FERSSupplementCalculation)
    (nowYear : ℤ) :
    ∀ p ∈ generateAnnualProjections c pension ss fersup nowYear,
      p.netIncome = p.grossIncome - p.totalDeductions
      ∧ p.grossIncome = p.pensionIncome + p.fersSupplementIncome
          + p.socialSecurityIncome + p.tspWithdrawal + p.otherIncome
      ∧ p.tspEndBalance = max 0 (p.tspStartBalance + p.tspGrowth - p.tspWithdrawal) := by
  intro p hp
  rw [generateAnnualProjections] at hp
  obtain ⟨b, a, rfl⟩ := projectYears_mem c pension ss fersup nowYear _ _ p hp
  obtain ⟨h0, hg, hn, hs, hgr, he⟩ := makeProjection_spec c pension ss fersup nowYear b a
  refine ⟨hn, ?_, ?_⟩
  · rw [hg, h0, add_zero]
  · rw [he, hs, hgr]

/-- Witness for `annualRecord_invariants` on the one-record run of `cfgP`. -/
theorem annualRecord_invariants_witness :
    pW1.netIncome = pW1.grossIncome - pW1.totalDeductions
    ∧ pW1.grossIncome = pW1.pensionIncome + pW1.fersSupplementIncome
        + pW1.socialSecurityIncome + pW1.tspWithdrawal + pW1.otherIncome
    ∧ pW1.tspEndBalance = max 0 (pW1.tspStartBalance + pW1.tspGrowth - pW1.tspWithdrawal) := by
  refine annualRecord_invariants cfgP penW ssW supW 2025 pW1 ?_
  have h1 : calculateAgeAtRetirement cfgP = 95 := by
    norm_num [calculateAgeAtRetirement, cfgP]
  have h2 : intRange 95 95 = [95] := by decide
  have h3 : cfgP.tsp.traditionalBalance + cfgP.tsp.rothBalance = 1000 := by
    norm_num [cfgP]
  rw [generateAnnualProjections, h1, h2, h3]
  simp only [projectYears]
  exact List.mem_singleton.mpr rfl

/-- C10: every emitted annual record has a zero `otherIncome` component,
and its gross income is exactly the sum of the four populated components
(pension, supplement, Social Security, pool withdrawal). -/
theorem otherIncome_zero (c : Config) (pension : PensionCalculation)
    (ss : SocialSecurityCalculation) (fersup : FERSSupplementCalculation)
    (nowYear : ℤ) :
    ∀ p ∈ generateAnnualProjections c pension ss fersup nowYear,
      p.otherIncome = 0
      ∧ p.grossIncome = p.pensionIncome + p.fersSupplementIncome
          + p.socialSecurityIncome + p.tspWithdrawal := by
  intro p hp
  rw [generateAnnualProjections] at hp
  obtain ⟨b, a, rfl⟩ := projectYears_mem c pension ss fersup nowYear _ _ p hp
  obtain ⟨h0, hg, -⟩ := makeProjection_spec c pension ss fersup nowYear b a
  exact ⟨h0, hg⟩

/-- Witness for `otherIncome_zero` on the one-record run of `cfgP`. -/
theorem otherIncome_zero_witness :
    pW1.otherIncome = 0
    ∧ pW1.grossIncome = pW1.pensionIncome + pW1.fersSupplementIncome
        + pW1.socialSecurityIncome + pW1.tspWithdrawal := by
  refine otherIncome_zero cfgP penW ssW supW 2025 pW1 ?_
  have h1 : calculateAgeAtRetirement cfgP = 95 := by
    norm_num [calculateAgeAtRetirement, cfgP]
  have h2 : intRange 95 95 = [95] := by decide
  have h3 : cfgP.tsp.traditionalBalance + cfgP.tsp.rothBalance = 1000 := by
    norm_num [cfgP]
  rw [generateAnnualProjections, h1, h2, h3]
  simp only [projectYears]
  exact List.mem_singleton.mpr rfl

/-- Non-positive pool balances always produce a zero withdrawal, for every
strategy tag. -/
theorem calculateTSPWithdrawal_nonpos (c : Config) (bal : ℚ) (age : ℤ)
    (h : bal ≤ 0) : calculateTSPWithdrawal c bal age = 0 := by
  simp [calculateTSPWithdrawal, h]

/-- A loop-body iteration on a zero balance keeps the start balance,
withdrawal and end balance all at zero. -/
theorem makeProjection_zero (c : Config) (pension : PensionCalculation)
    (ss : SocialSecurityCalculation) (fersup : FERSSupplementCalculation)
    (nowYear age : ℤ) :
    (makeProjection c pension ss fersup nowYear 0 age).tspStartBalance = 0
    ∧ (makeProjection c pension ss fersup nowYear 0 age).tspWithdrawal = 0
    ∧ (makeProjection c pension ss fersup nowYear 0 age).tspEndBalance = 0 := by
  have hw : calculateTSPWithdrawal c 0 age = 0 :=
    calculateTSPWithdrawal_nonpos c 0 age le_rfl
  refine ⟨?_, ?_, ?_⟩ <;> simp [makeProjection, hw]

/-- Starting the projection loop with a zero balance keeps every emitted
record's balances and withdrawal at zero. -/
theorem projectYears_zero (c : Config) (pension : PensionCalculation)
    (ss : SocialSecurityCalculation) (fersup : FERSSupplementCalculation)
    (nowYear : ℤ) :
    ∀ (ages : List ℤ), ∀ p ∈ projectYears c pension ss fersup nowYear ages 0,
      p.tspStartBalance = 0 ∧ p.tspWithdrawal = 0 ∧ p.tspEndBalance = 0 := by
  intro ages
  induction ages with
  | nil => intro p hp; simp [projectYears] at hp
  | cons a rest ih =>
      intro p hp
      simp only [projectYears] at hp
      rcases List.mem_cons.mp hp with h | h
      · rw [h]; exact makeProjection_zero c pension ss fersup nowYear a
      · rw [(makeProjection_zero c pension ss fersup nowYear a).2.2] at h
        exact ih p h

/-- Every suffix of the projection loop's output after some record `p` is
itself the loop run from `p`'s end balance. -/
theorem projectYears_suffix (c : Config) (pension : PensionCalculation)
    (ss : SocialSecurityCalculation) (fersup : FERSSupplementCalculation)
    (nowYear : ℤ) :
    ∀ (ages : List ℤ) (bal : ℚ) (pre : List AnnualProjection)
      (p : AnnualProjection) (post : List AnnualProjection),
      projectYears c pension ss fersup nowYear ages bal = pre ++ p :: post →
      ∃ ages2, post = projectYears c pension ss fersup nowYear ages2 p.tspEndBalance := by
  intro ages
  induction ages with
  | nil => intro bal pre p post h; simp [projectYears] at h
  | cons a rest ih =>
      intro bal pre p post h
      simp only [projectYears] at h
      cases pre with
      | nil =>
          rw [List.nil_append] at h
          obtain ⟨h1, h2⟩ := List.cons.injEq _ _ _ _ ▸ h
          exact ⟨rest, by rw [← h2, ← h1]⟩
      | cons x pre2 =>
          rw [List.cons_append] at h
          obtain ⟨-, h2⟩ := List.cons.injEq _ _ _ _ ▸ h
          exact ih _ pre2 p post h2

/-- C6: the pool's zero balance is a monotone terminal state — a
non-positive start balance yields a zero withdrawal under every strategy,
and once some emitted record's end balance is 0, every later record of the
projection run has a zero start balance, zero withdrawal and zero end
balance. -/
theorem tsp_zero_terminal (c : Config) (pension : PensionCalculation)
    (ss : SocialSecurityCalculation) (fersup : FERSSupplementCalculation)
    (nowYear : ℤ) :
    (∀ (bal : ℚ) (age : ℤ), bal ≤ 0 → calculateTSPWithdrawal c bal age = 0)
    ∧ (∀ (pre : List AnnualProjection) (p : AnnualProjection)
        (post : List AnnualProjection),
        generateAnnualProjections c pension ss fersup nowYear = pre ++ p :: post →
        p.tspEndBalance = 0 →
        ∀ q ∈ post,
          q.tspStartBalance = 0 ∧ q.tspWithdrawal = 0 ∧ q.tspEndBalance = 0) := by
  constructor
  · intro bal age h
    exact calculateTSPWithdrawal_nonpos c bal age h
  · intro pre p post h hz q hq
    rw [generateAnnualProjections] at h
    obtain ⟨ages2, h2⟩ :=
      projectYears_suffix c pension ss fersup nowYear _ _ pre p post h
    rw [hz] at h2
    subst h2
    exact projectYears_zero c pension ss fersup nowYear ages2 q hq

/-- Witness for `tsp_zero_terminal` on the two-record empty-pool run of
`cfgZ`: the first record ends at balance 0 and the second stays at zero. -/
theorem tsp_zero_terminal_witness :
    calculateTSPWithdrawal cfgZ 0 80 = 0
    ∧ (pZ2.tspStartBalance = 0 ∧ pZ2.tspWithdrawal = 0 ∧ pZ2.tspEndBalance = 0) := by
  have hgen : generateAnnualProjections cfgZ penW ssW supW 2025 = [pZ1, pZ2] := by
    have h1 : calculateAgeAtRetirement cfgZ = 94 := by
      norm_num [calculateAgeAtRetirement, cfgZ]
    have h2 : intRange 94 95 = [94, 95] := by decide
    have h3 : cfgZ.tsp.traditionalBalance + cfgZ.tsp.rothBalance = 0 := by
      norm_num [cfgZ]
    rw [generateAnnualProjections, h1, h2, h3]
    simp only [projectYears]
    rw [(makeProjection_zero cfgZ penW ssW supW 2025 94).2.2]
    rfl
  refine ⟨(tsp_zero_terminal cfgZ penW ssW supW 2025).1 0 80 le_rfl, ?_⟩
  refine (tsp_zero_terminal cfgZ penW ssW supW 2025).2 [] pZ1 [pZ2] ?_ ?_ pZ2 ?_
  · rw [hgen]; rfl
  · exact (makeProjection_zero cfgZ penW ssW supW 2025 94).2.2
  · exact List.mem_singleton.mpr rfl

/-- The comparison loop's running best lifetime income is the running
maximum. -/
theorem compMetricsLoop_best (l : List RetirementResults) :
    ∀ acc : CompAcc,
      (compMetricsLoop l acc).best =
        (l.map (fun r => r.summary.lifetimeIncome)).foldl max acc.best := by
  induction l with
  | nil => intro acc; simp [compMetricsLoop]
  | cons r rest ih =>
      intro acc
      simp only [compMetricsLoop, List.map_cons, List.foldl_cons]
      rw [ih]
      congr 1
      rcases le_or_lt r.summary.lifetimeIncome acc.best with h | h
      · rw [if_neg (not_lt.mpr h), max_eq_left h]
      · rw [if_pos h, max_eq_right h.le]

/-- The comparison loop's running worst lifetime income is the running
minimum. -/
theorem compMetricsLoop_worst (l : List RetirementResults) :
    ∀ acc : CompAcc,
      (compMetricsLoop l acc).worst =
        (l.map (fun r => r.summary.lifetimeIncome)).foldl min acc.worst := by
  induction l with
  | nil => intro acc; simp [compMetricsLoop]
  | cons r rest ih =>
      intro acc
      simp only [compMetricsLoop, List.map_cons, List.foldl_cons]
      rw [ih]
      congr 1
      rcases le_or_lt acc.worst r.summary.lifetimeIncome with h | h
      · rw [if_neg (not_lt.mpr h), min_eq_left h]
      · rw [if_pos h, min_eq_right h.le]

/-- The comparison loop's running best replacement ratio is the running
maximum. -/
theorem compMetricsLoop_bestRepl (l : List RetirementResults) :
    ∀ acc : CompAcc,
      (compMetricsLoop l acc).bestRepl =
        (l.map (fun r => r.summary.replacementRatio)).foldl max acc.bestRepl := by
  induction l with
  | nil => intro acc; simp [compMetricsLoop]
  | cons r rest ih =>
      intro acc
      simp only [compMetricsLoop, List.map_cons, List.foldl_cons]
      rw [ih]
      congr 1
      rcases le_or_lt r.summary.replacementRatio acc.bestRepl with h | h
      · rw [if_neg (not_lt.mpr h), max_eq_left h]
      · rw [if_pos h, max_eq_right h.le]

/-- The comparison loop's running worst replacement ratio is the running
minimum. -/
theorem compMetricsLoop_worstRepl (l : List RetirementResults) :
    ∀ acc : CompAcc,
      (compMetricsLoop l acc).worstRepl =
        (l.map (fun r => r.summary.replacementRatio)).foldl min acc.worstRepl := by
  induction l with
  | nil => intro acc; simp [compMetricsLoop]
  | cons r rest ih =>
      intro acc
      simp only [compMetricsLoop, List.map_cons, List.foldl_cons]
      rw [ih]
      congr 1
      rcases le_or_lt acc.worstRepl r.summary.replacementRatio with h | h
      · rw [if_neg (not_lt.mpr h), min_eq_left h]
      · rw [if_pos h, min_eq_right h.le]

/-- A successful scenario loop produces exactly one result per age
string. -/
theorem compareScenarios_length (base : Config) (nowYear : ℤ) :
    ∀ (l : List String) (rs : List RetirementResults),
      compareScenarios base nowYear l = Except.ok rs → rs.length = l.length := by
  intro l
  induction l with
  | nil =>
      intro rs h
      simp only [compareScenarios, Except.ok.injEq] at h
      rw [← h]
      rfl
  | cons s rest ih =>
      intro rs h
      simp only [compareScenarios] at h
      cases ha : atoi s with
      | none => simp only [ha] at h; exact Except.noConfusion h
      | some age =>
          simp only [ha] at h
          cases hc : Calculate (scenarioConfig base age) nowYear with
          | error e => simp only [hc] at h; exact Except.noConfusion h
          | ok r =>
              simp only [hc] at h
              cases hr : compareScenarios base nowYear rest with
              | error e => simp only [hr] at h; exact Except.noConfusion h
              | ok rs2 =>
                  simp only [hr, Except.ok.injEq] at h
                  rw [← h, List.length_cons, ih rs2 hr, List.length_cons]

/-- C7: for every successful comparison run with a non-empty scenario
list, the reported lifetime-income spread is the maximum minus the minimum
lifetime income over exactly those scenarios, the replacement-ratio spread
is the maximum minus the minimum replacement ratio, and the reported
scenario count equals the number of age strings supplied by the caller. -/
theorem comparison_spread_count (base : Config) (nowYear : ℤ)
    (ageStrings : List String) (cr : ComparisonResults)
    (h : CompareRetirementAges base nowYear ageStrings = Except.ok cr)
    (r : RetirementResults) (rest : List RetirementResults)
    (hs : cr.scenarios = r :: rest) :
    cr.comparisonMetrics.lifetimeIncomeSpread =
        listMax r.summary.lifetimeIncome
            (rest.map (fun x => x.summary.lifetimeIncome))
          - listMin r.summary.lifetimeIncome
            (rest.map (fun x => x.summary.lifetimeIncome))
    ∧ cr.comparisonMetrics.replacementRatioSpread =
        listMax r.summary.replacementRatio
            (rest.map (fun x => x.summary.replacementRatio))
          - listMin r.summary.replacementRatio
            (rest.map (fun x => x.summary.replacementRatio))
    ∧ cr.comparisonMetrics.scenarioCount = ageStrings.length := by
  simp only [CompareRetirementAges] at h
  cases hc : compareScenarios base nowYear ageStrings with
  | error e => simp only [hc] at h; exact Except.noConfusion h
  | ok results =>
      simp only [hc, Except.ok.injEq] at h
      have hsc : cr.scenarios = results := by rw [← h]
      have hm : cr.comparisonMetrics = calculateComparisonMetrics results := by
        rw [← h]
      rw [hsc] at hs
      subst hs
      rw [hm]
      simp only [calculateComparisonMetrics]
      refine ⟨?_, ?_, ?_⟩
      · rw [compMetricsLoop_best, compMetricsLoop_worst]
        rfl
      · rw [compMetricsLoop_bestRepl, compMetricsLoop_worstRepl]
        rfl
      · exact compareScenarios_length base nowYear ageStrings (r :: rest) hc

/-- Witness for `comparison_spread_count` on the concrete two-scenario run
`crW`. -/
theorem comparison_spread_count_witness :
    crW.comparisonMetrics.lifetimeIncomeSpread =
        listMax rW.summary.lifetimeIncome
            (restW.map (fun x => x.summary.lifetimeIncome))
          - listMin rW.summary.lifetimeIncome
            (restW.map (fun x => x.summary.lifetimeIncome))
    ∧ crW.comparisonMetrics.replacementRatioSpread =
        listMax rW.summary.replacementRatio
            (restW.map (fun x => x.summary.replacementRatio))
          - listMin rW.summary.replacementRatio
            (restW.map (fun x => x.summary.replacementRatio))
    ∧ crW.comparisonMetrics.scenarioCount = strs7.length :=
  comparison_spread_count cfgP 2025 strs7 crW rfl rW restW rfl

/-- A successful state-threaded comparison run leaves the caller's profile
untouched and yields the same scenario list as the pure scenario loop. -/
theorem compareScenariosSt_ok (base : Config) (nowYear : ℤ) :
    ∀ (l : List String) (out : Config × List RetirementResults),
      compareScenariosSt base nowYear l = Except.ok out →
      out.1 = base ∧ compareScenarios base nowYear l = Except.ok out.2 := by
  intro l
  induction l with
  | nil =>
      intro out h
      simp only [compareScenariosSt, Except.ok.injEq] at h
      rw [← h]
      exact ⟨rfl, rfl⟩
  | cons s rest ih =>
      intro out h
      simp only [compareScenariosSt] at h
      cases ha : atoi s with
      | none => simp only [ha] at h; exact Except.noConfusion h
      | some age =>
          simp only [ha] at h
          cases hc : Calculate (scenarioConfig base age) nowYear with
          | error e => simp only [hc] at h; exact Except.noConfusion h
          | ok r =>
              simp only [hc] at h
              cases hr : compareScenariosSt base nowYear rest with
              | error e => simp only [hr] at h; exact Except.noConfusion h
              | ok out2 =>
                  simp only [hr, Except.ok.injEq] at h
                  obtain ⟨h1, h2⟩ := ih out2 hr
                  refine ⟨?_, ?_⟩
                  · rw [← h]; exact h1
                  · simp only [compareScenarios, ha, hc, h2]
                    rw [← h]

/-- C8: a comparison run never mutates the caller's base profile — the
statement-by-statement state-threaded rendering of the loop returns the
caller's profile unchanged (and produces exactly the pure pipeline's
result), and each scenario's working copy agrees with the base profile on
every section except the overridden target retirement date. -/
theorem compare_frame (base : Config) (nowYear : ℤ) (ageStrings : List String) :
    (∀ out, compareScenariosSt base nowYear ageStrings = Except.ok out →
        out.1 = base
        ∧ CompareRetirementAges base nowYear ageStrings =
            Except.ok
              { scenarios := out.2
                comparisonMetrics := calculateComparisonMetrics out.2 })
    ∧ (∀ age : ℤ,
        (scenarioConfig base age).personal = base.personal
        ∧ (scenarioConfig base age).employment = base.employment
        ∧ (scenarioConfig base age).tsp = base.tsp
        ∧ (scenarioConfig base age).socialSecurity = base.socialSecurity
        ∧ (scenarioConfig base age).healthInsurance = base.healthInsurance
        ∧ (scenarioConfig base age).taxInfo = base.taxInfo
        ∧ (scenarioConfig base age).retirement.targetAge =
            base.retirement.targetAge
        ∧ (scenarioConfig base age).retirement.survivorBenefit =
            base.retirement.survivorBenefit) := by
  constructor
  · intro out hout
    obtain ⟨h1, h2⟩ := compareScenariosSt_ok base nowYear ageStrings out hout
    refine ⟨h1, ?_⟩
    simp only [CompareRetirementAges, h2]
  · intro age
    exact ⟨rfl, rfl, rfl, rfl, rfl, rfl, rfl, rfl⟩

/-- Witness for `compare_frame` on the concrete single-age run `outW`. -/
theorem compare_frame_witness :
    outW.1 = cfgP
    ∧ (scenarioConfig cfgP 95).retirement.targetAge =
        cfgP.retirement.targetAge :=
  ⟨((compare_frame cfgP 2025 ["95"]).1 outW rfl).1,
   ((compare_frame cfgP 2025 ["95"]).2 95).2.2.2.2.2.2.1⟩

end Ferex

